import Mathlib

/-!
Shallow embedding of the rf2xx radio driver wrapper
(`platform/openlab/radio-rf2xx.c`).

The driver state machine is mirrored directly:
* `RState` is the C `enum rf2xx_state`.
* `Driver` bundles the shared variables `rf2xx_state`, `rf2xx_on`,
  `tx_buf`, `tx_len` together with the device constant `rf2xx_has_pa`.
* Chip commands issued over the bus are recorded in a `List Cmd` trace
  (the register/FIFO access layer is an external collaborator, so only
  the fact that a command was issued is modelled, not the chip).
* The busy-wait loops in `rf2xx_wr_transmit` are modelled by an
  environment `TxEnv` supplying the outcome of each wait: whether the
  PLL-ready poll timed out, and the value of `rf2xx_state` when the
  `while (rf2xx_state == RF_TX)` spin exits (that value is written by
  the concurrently running `irq_handler`).
Bytes are `Nat`s; the `uint8_t` arithmetic in `read` and the
`unsigned short` → `uint8_t` truncation at the `read` call site in
`rf2xx_wr_read` are made explicit with `% 256`.
-/

/-- The C `enum rf2xx_state`. -/
inductive RState where
  | RF_IDLE
  | RF_BUSY
  | RF_TX
  | RF_TX_DONE
  | RF_LISTEN
  | RF_RX
  | RF_RX_DONE
  | RF_RX_READ
deriving DecidableEq, Repr, Fintype

open RState

/-- Chip state commands passed to `rf2xx_set_state`. -/
inductive TrxCmd where
  | forcePllOn   -- RF2XX_TRX_STATE__FORCE_PLL_ON
  | rxOn         -- RF2XX_TRX_STATE__RX_ON
  | pllOn        -- RF2XX_TRX_STATE__PLL_ON
deriving DecidableEq, Repr, Fintype

/-- Bus commands the driver issues to the chip; the trace of these is an
output of each modelled operation. -/
inductive Cmd where
  | irqStatusRead               -- rf2xx_reg_read(.., IRQ_STATUS)
  | paSet (enabled : Bool)      -- pa enable/disable + DIG3/4 pin toggling
  | irqEnable
  | irqDisable
  | fifoCancel
  | slpTrClear
  | slpTrSet
  | setTrxState (s : TrxCmd)    -- rf2xx_set_state
  | fifoWriteFirst (n : Nat)
  | fifoWriteRemaining (n : Nat)
  | processPoll                 -- process_poll(&rf2xx_process)
deriving DecidableEq, Repr

/-- `#define RF2XX_MAX_PAYLOAD 125` -/
def RF2XX_MAX_PAYLOAD : Nat := 125

/-- The driver's shared variables (`rf2xx_state`, `rf2xx_on`, `tx_buf`,
`tx_len`) plus the device constant `rf2xx_has_pa RF2XX_DEVICE`. -/
structure Driver where
  rf2xx_state : RState
  rf2xx_on : Bool
  tx_buf : List Nat
  tx_len : Nat
  hasPa : Bool
deriving DecidableEq, Repr

/-- Contiki radio-driver transmit return codes. -/
inductive TxCode where
  | RADIO_TX_OK
  | RADIO_TX_ERR
  | RADIO_TX_COLLISION
deriving DecidableEq, Repr, Fintype

open TxCode

/-- `static void idle(void)`: quiesce the chip.  Touches no driver
variable; emits irq-disable, fifo-cancel, slp_tr-clear, FORCE_PLL_ON and
(if the board has a PA) the PA-disable sequence. -/
def idle (d : Driver) : Driver × List Cmd :=
  (d, [Cmd.irqDisable, Cmd.fifoCancel, Cmd.slpTrClear,
       Cmd.setTrxState TrxCmd.forcePllOn] ++
      (if d.hasPa then [Cmd.paSet false] else []))

/-- `static void listen(void)`: clear the IRQ latch, enable the PA if
present, enable interrupts, then (under the critical section) set
`rf2xx_state = RF_LISTEN` and command the chip into RX_ON. -/
def listen (d : Driver) : Driver × List Cmd :=
  ({d with rf2xx_state := RF_LISTEN},
   [Cmd.irqStatusRead] ++ (if d.hasPa then [Cmd.paSet true] else []) ++
   [Cmd.irqEnable, Cmd.setTrxState TrxCmd.rxOn])

/-- `static void restart(void)`: `idle()`, then `listen()` if `rf2xx_on`
else `rf2xx_state = RF_IDLE`. -/
def restart (d : Driver) : Driver × List Cmd :=
  let p := idle d
  if p.1.rf2xx_on then
    let q := listen p.1
    (q.1, p.2 ++ q.2)
  else
    ({p.1 with rf2xx_state := RF_IDLE}, p.2)

/-- The critical section of `rf2xx_wr_on` (lines 357-367).  Returns the
driver state at `platform_exit_critical()` together with `flag`.
NOTE: the source line `rf2xx_state == RF_BUSY;` is a comparison
expression statement with no effect, so the branch taken when
`rf2xx_state == RF_IDLE` sets `flag` but leaves `rf2xx_state`
unchanged; the embedding mirrors that. -/
def rf2xx_wr_on_crit (d : Driver) : Driver × Bool :=
  if !d.rf2xx_on then
    let d1 := {d with rf2xx_on := true}
    if d1.rf2xx_state = RF_IDLE then
      (d1, true)
    else
      (d1, false)
  else
    (d, false)

/-- `static int rf2xx_wr_on(void)`: the critical section, then
`listen()` when `flag` was set; returns 1. -/
def rf2xx_wr_on (d : Driver) : Driver × List Cmd × Nat :=
  let p := rf2xx_wr_on_crit d
  if p.2 then
    let q := listen p.1
    (q.1, q.2, 1)
  else
    (p.1, [], 1)

/-- The critical section of `rf2xx_wr_off` (lines 385-395): if
`rf2xx_on`, clear it, and if `rf2xx_state == RF_LISTEN` set the state
to `RF_BUSY` and set `flag`. -/
def rf2xx_wr_off_crit (d : Driver) : Driver × Bool :=
  if d.rf2xx_on then
    let d1 := {d with rf2xx_on := false}
    if d1.rf2xx_state = RF_LISTEN then
      ({d1 with rf2xx_state := RF_BUSY}, true)
    else
      (d1, false)
  else
    (d, false)

/-- `static int rf2xx_wr_off(void)`: the critical section, then when
`flag` was set `idle()` followed by `rf2xx_state = RF_IDLE`; returns 1. -/
def rf2xx_wr_off (d : Driver) : Driver × List Cmd × Nat :=
  let p := rf2xx_wr_off_crit d
  if p.2 then
    let q := idle p.1
    ({q.1 with rf2xx_state := RF_IDLE}, q.2, 1)
  else
    (p.1, [], 1)

/-- `static int rf2xx_wr_prepare(const void *payload, unsigned short
payload_len)`: reject `payload_len > RF2XX_MAX_PAYLOAD` with return 1
and `tx_len = 0`; otherwise record `tx_len` and
`memcpy(tx_buf, payload, tx_len)`.  The memcpy overwrites the first
`tx_len` bytes of the fixed buffer and leaves the rest. -/
def rf2xx_wr_prepare (d : Driver) (payload : List Nat) (payload_len : Nat) :
    Driver × Nat :=
  if payload_len > RF2XX_MAX_PAYLOAD then
    ({d with tx_len := 0}, 1)
  else
    ({d with tx_len := payload_len,
             tx_buf := payload.take payload_len ++ d.tx_buf.drop payload_len}, 0)

/-- Outcomes of the two busy-waits in `rf2xx_wr_transmit`, supplied by
the environment: whether the PLL-ready poll hit its 1 ms timeout, and
the value of `rf2xx_state` observed when the
`while (rf2xx_state == RF_TX)` spin exits (written by the interrupt
handler running concurrently; the loop only exits once it differs from
`RF_TX`). -/
structure TxEnv where
  pllTimeout : Bool
  postSpin : RState
deriving DecidableEq, Repr

/-- Body of `rf2xx_wr_transmit` after the state arbitration (lines
181-235): IRQ latch clear, PA enable, PLL-ready wait (on timeout:
`restart()` and `RADIO_TX_ERR`), FIFO write, SLP_TR trigger, spin until
the interrupt handler moves the state off `RF_TX`, compute the result,
and always `restart()`. -/
def rf2xx_tx_body (d : Driver) (env : TxEnv) : Driver × List Cmd × TxCode :=
  let setup := [Cmd.irqStatusRead] ++ (if d.hasPa then [Cmd.paSet true] else [])
  if env.pllTimeout then
    let r := restart d
    (r.1, setup ++ r.2, RADIO_TX_ERR)
  else
    let mid := [Cmd.irqEnable, Cmd.fifoWriteFirst (d.tx_len + 2),
                Cmd.fifoWriteRemaining d.tx_len, Cmd.slpTrSet]
    let d1 := {d with rf2xx_state := env.postSpin}
    let ret := if d1.rf2xx_state = RF_TX_DONE then RADIO_TX_OK else RADIO_TX_ERR
    let r := restart d1
    (r.1, setup ++ mid ++ r.2, ret)

/-- `static int rf2xx_wr_transmit(unsigned short transmit_len)`: the
`tx_len != transmit_len` check first, then the critical-section switch
(from `RF_LISTEN`: set `flag`, fall through; from `RF_IDLE`: state
becomes `RF_TX`; default: `RADIO_TX_COLLISION`), `idle()` when the
state was `RF_LISTEN`, then the transmit body. -/
def rf2xx_wr_transmit (d : Driver) (transmit_len : Nat) (env : TxEnv) :
    Driver × List Cmd × TxCode :=
  if d.tx_len ≠ transmit_len then
    (d, [], RADIO_TX_ERR)
  else
    match d.rf2xx_state with
    | RF_LISTEN =>
        let d1 := {d with rf2xx_state := RF_TX}
        let p := idle d1
        let r := rf2xx_tx_body p.1 env
        (r.1, p.2 ++ r.2.1, r.2.2)
    | RF_IDLE =>
        rf2xx_tx_body {d with rf2xx_state := RF_TX} env
    | _ => (d, [], RADIO_TX_COLLISION)

/-- What the chip presents to `read`: the CRC-valid bit of PHY_RSSI,
the frame length byte returned by `rf2xx_fifo_read_first` (a
`uint8_t`), and the FIFO payload bytes. -/
structure ChipEnv where
  crcValid : Bool
  frameLenByte : Nat
  fifo : List Nat
deriving DecidableEq, Repr

/-- Result of the frame drain: the caller's buffer after the call, the
byte count passed to `rf2xx_fifo_read_remaining` (`none` when no drain
call is made), and the return value. -/
structure ReadResult where
  buf : List Nat
  drained : Option Nat
  ret : Nat
deriving DecidableEq, Repr

/-- `static int read(uint8_t *buf, uint8_t buf_len)`: return 0 when the
CRC is bad; otherwise `uint8_t len = rf2xx_fifo_read_first(..) - 2`
(8-bit wraparound, hence `(.. + 254) % 256`); when `len > buf_len`
drain 0 bytes and return 0; otherwise copy `len` bytes into `buf` and
return `len`. -/
def read (chip : ChipEnv) (buf : List Nat) (buf_len : Nat) : ReadResult :=
  if !chip.crcValid then
    ⟨buf, none, 0⟩
  else
    let len := (chip.frameLenByte + 254) % 256
    if len > buf_len then
      ⟨buf, some 0, 0⟩
    else
      ⟨chip.fifo.take len ++ buf.drop len, some len, len⟩

/-- `static int rf2xx_wr_read(void *buf, unsigned short buf_len)`:
return 0 unless `rf2xx_state == RF_RX_DONE`; otherwise set
`RF_RX_READ`, call `read(buf, buf_len)` — the `unsigned short` argument
is truncated to the `uint8_t` parameter, hence `% 256` — then
`restart()` and return the drained length. -/
def rf2xx_wr_read (d : Driver) (chip : ChipEnv) (buf : List Nat)
    (buf_len : Nat) : Driver × ReadResult :=
  if d.rf2xx_state ≠ RF_RX_DONE then
    (d, ⟨buf, none, 0⟩)
  else
    let d1 := {d with rf2xx_state := RF_RX_READ}
    let r := read chip buf (buf_len % 256)
    ((restart d1).1, r)

/-- `static void irq_handler(handler_arg_t arg)` as a pure function of
the sampled state and the two latch bits RX_START and TRX_END.  States
outside {RF_TX, RF_LISTEN, RF_RX} return with no command; otherwise the
latch is read (clearing it), RX_START moves RF_LISTEN to RF_RX, and
TRX_END moves RF_TX to RF_TX_DONE and RF_RX/RF_LISTEN to RF_RX_DONE
while commanding PLL_ON and polling the process. -/
def irq_handler (st : RState) (rx_start trx_end : Bool) :
    RState × List Cmd :=
  match st with
  | RF_TX | RF_LISTEN | RF_RX =>
    let state := if rx_start ∧ st = RF_LISTEN then RF_RX else st
    if trx_end then
      match state with
      | RF_TX => (RF_TX_DONE, [Cmd.irqStatusRead])
      | RF_RX | RF_LISTEN =>
          (RF_RX_DONE,
           [Cmd.irqStatusRead, Cmd.setTrxState TrxCmd.pllOn, Cmd.processPoll])
      | s => (s, [Cmd.irqStatusRead])
    else
      (state, [Cmd.irqStatusRead])
  | s => (s, [])

/-! ## Helper lemmas -/

/-- `idle` leaves every driver variable unchanged. -/
theorem idle_fst (d : Driver) : (idle d).1 = d := rfl

/-- `listen` sets the state to `RF_LISTEN` and nothing else. -/
theorem listen_fst (d : Driver) :
    (listen d).1 = {d with rf2xx_state := RF_LISTEN} := rfl

/-- Unfolding equation for the frame drain. -/
theorem read_eq (chip : ChipEnv) (buf : List Nat) (buf_len : Nat) :
    read chip buf buf_len =
      if !chip.crcValid then ⟨buf, none, 0⟩
      else if (chip.frameLenByte + 254) % 256 > buf_len then ⟨buf, some 0, 0⟩
      else ⟨chip.fifo.take ((chip.frameLenByte + 254) % 256) ++
              buf.drop ((chip.frameLenByte + 254) % 256),
            some ((chip.frameLenByte + 254) % 256),
            (chip.frameLenByte + 254) % 256⟩ := rfl

/-- `restart` always leaves the state at the OnOffFlag-implied baseline. -/
theorem restart_state (d : Driver) :
    ((restart d).1).rf2xx_state = if d.rf2xx_on then RF_LISTEN else RF_IDLE := by
  cases h : d.rf2xx_on <;> simp [restart, idle_fst, listen_fst, h]

/-- `restart` does not touch the OnOffFlag. -/
theorem restart_on (d : Driver) : ((restart d).1).rf2xx_on = d.rf2xx_on := by
  cases h : d.rf2xx_on <;> simp [restart, idle_fst, listen_fst, h]

/-! ## Claims -/

/-- C1: the claim says the critical section of `on()` sets RadioState to
the `RF_BUSY` marker before `listen()` runs, so no concurrent caller can
observe `RF_IDLE` between the OnOffFlag update and the `listen()` call.
The source statement `rf2xx_state == RF_BUSY;` (line 364) is a
comparison with no effect: starting from OnOffFlag false and state
`RF_IDLE`, the critical section exits with `flag` set but with the
state still `RF_IDLE`, not `RF_BUSY`. -/
theorem c1_on_from_idle_leaves_idle_not_busy :
    (rf2xx_wr_on_crit ⟨RF_IDLE, false, [], 0, false⟩).2 = true ∧
    ((rf2xx_wr_on_crit ⟨RF_IDLE, false, [], 0, false⟩).1).rf2xx_state = RF_IDLE ∧
    ((rf2xx_wr_on_crit ⟨RF_IDLE, false, [], 0, false⟩).1).rf2xx_state ≠ RF_BUSY := by
  refine ⟨rfl, rfl, by decide⟩

/-- C2: `irq_handler` viewed as a function of (state, latch bits):
no state change and no command outside {RF_TX, RF_LISTEN, RF_RX};
RX_START while RF_LISTEN (and no TRX_END) yields RF_RX; TRX_END yields
RF_TX_DONE from RF_TX, and RF_RX_DONE from RF_RX/RF_LISTEN together
with the PLL_ON command (leaving receive-armed mode) and the worker
poll. -/
theorem c2_irq_handler_cases :
    ∀ (st : RState) (rx te : Bool),
      (¬(st = RF_TX ∨ st = RF_LISTEN ∨ st = RF_RX) →
        irq_handler st rx te = (st, [])) ∧
      (st = RF_LISTEN → rx = true → te = false →
        irq_handler st rx te = (RF_RX, [Cmd.irqStatusRead])) ∧
      (st = RF_TX → te = true →
        irq_handler st rx te = (RF_TX_DONE, [Cmd.irqStatusRead])) ∧
      ((st = RF_RX ∨ st = RF_LISTEN) → te = true →
        irq_handler st rx te =
          (RF_RX_DONE, [Cmd.irqStatusRead, Cmd.setTrxState TrxCmd.pllOn,
                        Cmd.processPoll])) := by
  intro st rx te
  cases st <;> cases rx <;> cases te <;> exact (by decide)

theorem c2_irq_handler_cases_witness :
    irq_handler RF_LISTEN true false = (RF_RX, [Cmd.irqStatusRead]) ∧
    irq_handler RF_TX true true = (RF_TX_DONE, [Cmd.irqStatusRead]) ∧
    irq_handler RF_LISTEN true true =
      (RF_RX_DONE, [Cmd.irqStatusRead, Cmd.setTrxState TrxCmd.pllOn,
                    Cmd.processPoll]) ∧
    irq_handler RF_RX_DONE true true = (RF_RX_DONE, []) :=
  ⟨(c2_irq_handler_cases RF_LISTEN true false).2.1 rfl rfl rfl,
   (c2_irq_handler_cases RF_TX true true).2.2.1 rfl rfl,
   (c2_irq_handler_cases RF_LISTEN true true).2.2.2 (Or.inr rfl) rfl,
   (c2_irq_handler_cases RF_RX_DONE true true).1 (by decide)⟩

/-- C4: `prepare` rejects `payload_len > 125` with return 1, resets
`tx_len` to 0 and copies nothing; within capacity it returns 0, records
the length and memcpys exactly `payload_len` bytes of the payload into
the buffer; RadioState is unchanged in both cases. -/
theorem c4_prepare_bounds (d : Driver) (payload : List Nat) (n : Nat) :
    (n > RF2XX_MAX_PAYLOAD →
      rf2xx_wr_prepare d payload n = ({d with tx_len := 0}, 1)) ∧
    (n ≤ RF2XX_MAX_PAYLOAD →
      rf2xx_wr_prepare d payload n =
        ({d with tx_len := n,
                 tx_buf := payload.take n ++ d.tx_buf.drop n}, 0)) ∧
    ((rf2xx_wr_prepare d payload n).1).rf2xx_state = d.rf2xx_state := by
  refine ⟨fun h => by simp [rf2xx_wr_prepare, h],
          fun h => by simp [rf2xx_wr_prepare, Nat.not_lt.mpr h],
          ?_⟩
  by_cases h : n > RF2XX_MAX_PAYLOAD <;> simp [rf2xx_wr_prepare, h]

theorem c4_prepare_bounds_witness :
    rf2xx_wr_prepare ⟨RF_IDLE, false, [0, 0], 2, false⟩ [7] 126 =
      (⟨RF_IDLE, false, [0, 0], 0, false⟩, 1) ∧
    rf2xx_wr_prepare ⟨RF_IDLE, false, [0, 0], 2, false⟩ [7] 1 =
      (⟨RF_IDLE, false, [7, 0], 1, false⟩, 0) :=
  ⟨(c4_prepare_bounds ⟨RF_IDLE, false, [0, 0], 2, false⟩ [7] 126).1
     (by decide),
   (c4_prepare_bounds ⟨RF_IDLE, false, [0, 0], 2, false⟩ [7] 1).2.1
     (by decide)⟩

/-- C10: the `tx_len != transmit_len` check in `rf2xx_wr_transmit`
precedes the state switch: on a mismatch the call returns
`RADIO_TX_ERR` (never `RADIO_TX_COLLISION`) and mutates nothing,
whatever `rf2xx_state` is — including `RF_TX` and `RF_RX`. -/
theorem c10_transmit_length_mismatch_first (d : Driver) (len : Nat)
    (env : TxEnv) (h : d.tx_len ≠ len) :
    rf2xx_wr_transmit d len env = (d, [], RADIO_TX_ERR) := by
  simp [rf2xx_wr_transmit, h]

theorem c10_transmit_length_mismatch_first_witness :
    rf2xx_wr_transmit ⟨RF_TX, true, [], 0, false⟩ 1 ⟨false, RF_TX_DONE⟩ =
      (⟨RF_TX, true, [], 0, false⟩, [], RADIO_TX_ERR) :=
  c10_transmit_length_mismatch_first ⟨RF_TX, true, [], 0, false⟩ 1
    ⟨false, RF_TX_DONE⟩ (by decide)

/-- C3: a `transmit` call that passes the length check and starts from
`RF_IDLE` or `RF_LISTEN` never reports a collision, and — whether it
ends in the PLL timeout, a delivered `RF_TX_DONE`, or any other
post-spin state — finishes through `restart()`, leaving the state at
the OnOffFlag-implied baseline and the flag itself untouched. -/
theorem c3_transmit_restores_baseline (d : Driver) (len : Nat) (env : TxEnv)
    (hlen : d.tx_len = len)
    (hst : d.rf2xx_state = RF_IDLE ∨ d.rf2xx_state = RF_LISTEN)
    (hspin : env.postSpin ≠ RF_TX) :
    ((rf2xx_wr_transmit d len env).1).rf2xx_state =
      (if d.rf2xx_on then RF_LISTEN else RF_IDLE) ∧
    ((rf2xx_wr_transmit d len env).1).rf2xx_on = d.rf2xx_on ∧
    (rf2xx_wr_transmit d len env).2.2 ≠ RADIO_TX_COLLISION := by
  subst hlen
  rcases hst with h | h <;>
    cases ht : env.pllTimeout <;>
      cases ho : d.rf2xx_on <;>
        simp [rf2xx_wr_transmit, h, rf2xx_tx_body, idle_fst, ht,
              restart_state, restart_on, ho] <;>
          cases hps : env.postSpin <;> simp_all

theorem c3_transmit_restores_baseline_witness :
    ((rf2xx_wr_transmit ⟨RF_IDLE, false, [], 0, false⟩ 0
        ⟨false, RF_TX_DONE⟩).1).rf2xx_state =
      (if (Driver.mk RF_IDLE false [] 0 false).rf2xx_on
        then RF_LISTEN else RF_IDLE) ∧
    ((rf2xx_wr_transmit ⟨RF_IDLE, false, [], 0, false⟩ 0
        ⟨false, RF_TX_DONE⟩).1).rf2xx_on = false ∧
    (rf2xx_wr_transmit ⟨RF_IDLE, false, [], 0, false⟩ 0
        ⟨false, RF_TX_DONE⟩).2.2 ≠ RADIO_TX_COLLISION :=
  c3_transmit_restores_baseline ⟨RF_IDLE, false, [], 0, false⟩ 0
    ⟨false, RF_TX_DONE⟩ rfl (Or.inl rfl) (by decide)

/-- C5: `transmit` with a matching length but a state other than
`RF_IDLE`/`RF_LISTEN` (in particular `RF_TX` or `RF_RX`) returns
`RADIO_TX_COLLISION` and leaves the whole driver record — state,
OnOffFlag and TxBuffer — untouched, issuing no chip command. -/
theorem c5_transmit_collision_no_mutation (d : Driver) (len : Nat)
    (env : TxEnv) (hlen : d.tx_len = len)
    (hst : d.rf2xx_state ≠ RF_IDLE) (hst2 : d.rf2xx_state ≠ RF_LISTEN) :
    rf2xx_wr_transmit d len env = (d, [], RADIO_TX_COLLISION) := by
  subst hlen
  cases h : d.rf2xx_state <;> simp_all [rf2xx_wr_transmit, h]

theorem c5_transmit_collision_no_mutation_witness :
    rf2xx_wr_transmit ⟨RF_TX, true, [], 0, false⟩ 0 ⟨false, RF_TX_DONE⟩ =
      (⟨RF_TX, true, [], 0, false⟩, [], RADIO_TX_COLLISION) :=
  c5_transmit_collision_no_mutation ⟨RF_TX, true, [], 0, false⟩ 0
    ⟨false, RF_TX_DONE⟩ rfl (by decide) (by decide)

/-- C6: for a CRC-valid frame the drain computes the payload length as
the frame's length byte minus the 2-byte trailer; if that exceeds the
drain's buffer length it issues a zero-length FIFO drain and returns 0
with the buffer untouched; otherwise it copies exactly that many bytes
from the FIFO into the buffer and returns that length. -/
theorem c6_read_drain (chip : ChipEnv) (buf : List Nat) (buf_len : Nat)
    (hcrc : chip.crcValid = true)
    (hlo : 2 ≤ chip.frameLenByte) (hhi : chip.frameLenByte ≤ 255) :
    (chip.frameLenByte - 2 > buf_len →
      read chip buf buf_len = ⟨buf, some 0, 0⟩) ∧
    (chip.frameLenByte - 2 ≤ buf_len →
      read chip buf buf_len =
        ⟨chip.fifo.take (chip.frameLenByte - 2) ++
            buf.drop (chip.frameLenByte - 2),
         some (chip.frameLenByte - 2), chip.frameLenByte - 2⟩) := by
  have hlen : (chip.frameLenByte + 254) % 256 = chip.frameLenByte - 2 := by
    omega
  constructor
  · intro h
    rw [read_eq, hcrc, hlen]
    simp [h]
  · intro h
    rw [read_eq, hcrc, hlen]
    simp [Nat.not_lt.mpr h]

theorem c6_read_drain_witness :
    read ⟨true, 5, [10, 11, 12]⟩ [0, 0, 0] 3 = ⟨[10, 11, 12], some 3, 3⟩ ∧
    read ⟨true, 5, [10, 11, 12]⟩ [0, 0, 0] 2 = ⟨[0, 0, 0], some 0, 0⟩ :=
  ⟨(c6_read_drain ⟨true, 5, [10, 11, 12]⟩ [0, 0, 0] 3 rfl (by decide)
      (by decide)).2 (by decide),
   (c6_read_drain ⟨true, 5, [10, 11, 12]⟩ [0, 0, 0] 2 rfl (by decide)
      (by decide)).1 (by decide)⟩

/-- C7: `off()` while `RF_LISTEN` with OnOffFlag true passes through the
`RF_BUSY` marker inside the critical section and ends with the state
driven to `RF_IDLE` via `idle()`; `off()` while `RF_TX` only clears the
OnOffFlag, leaves the state `RF_TX` and issues no chip command, and the
in-flight transmit's final `restart()` then resolves to `RF_IDLE`
whatever state the transmit reached. -/
theorem c7_off_listen_vs_transmitting (d : Driver) :
    (d.rf2xx_state = RF_LISTEN → d.rf2xx_on = true →
      ((rf2xx_wr_off_crit d).1.rf2xx_state = RF_BUSY ∧
       ((rf2xx_wr_off d).1).rf2xx_state = RF_IDLE ∧
       ((rf2xx_wr_off d).1).rf2xx_on = false)) ∧
    (d.rf2xx_state = RF_TX →
      ((rf2xx_wr_off d).1 = {d with rf2xx_on := false} ∧
       (rf2xx_wr_off d).2.1 = [] ∧
       (∀ s : RState,
         ((restart {d with rf2xx_on := false, rf2xx_state := s}).1).rf2xx_state =
           RF_IDLE))) := by
  constructor
  · intro h hon
    simp [rf2xx_wr_off, rf2xx_wr_off_crit, idle_fst, h, hon]
  · intro h
    obtain ⟨s, o, b, l, p⟩ := d
    simp only at h
    subst h
    cases o <;>
      simp [rf2xx_wr_off, rf2xx_wr_off_crit, idle_fst, restart_state]

theorem c7_off_listen_vs_transmitting_witness :
    ((rf2xx_wr_off_crit ⟨RF_LISTEN, true, [], 0, false⟩).1.rf2xx_state =
       RF_BUSY ∧
     ((rf2xx_wr_off ⟨RF_LISTEN, true, [], 0, false⟩).1).rf2xx_state =
       RF_IDLE ∧
     ((rf2xx_wr_off ⟨RF_LISTEN, true, [], 0, false⟩).1).rf2xx_on = false) ∧
    ((rf2xx_wr_off ⟨RF_TX, true, [], 0, false⟩).1 =
       ⟨RF_TX, false, [], 0, false⟩ ∧
     (rf2xx_wr_off ⟨RF_TX, true, [], 0, false⟩).2.1 = [] ∧
     (∀ s : RState,
       ((restart ⟨s, false, [], 0, false⟩).1).rf2xx_state = RF_IDLE)) :=
  ⟨(c7_off_listen_vs_transmitting ⟨RF_LISTEN, true, [], 0, false⟩).1
     rfl rfl,
   (c7_off_listen_vs_transmitting ⟨RF_TX, true, [], 0, false⟩).2 rfl⟩

/-- C8: `on()` is idempotent: when OnOffFlag is already true a further
`on()` changes neither the flag nor the state and issues no chip
command (only the return value 1); consequently calling `on()` twice
from any driver state equals calling it once. -/
theorem c8_on_idempotent (d : Driver) :
    (d.rf2xx_on = true → rf2xx_wr_on d = (d, [], 1)) ∧
    rf2xx_wr_on ((rf2xx_wr_on d).1) = ((rf2xx_wr_on d).1, [], 1) := by
  constructor
  · intro h
    simp [rf2xx_wr_on, rf2xx_wr_on_crit, h]
  · cases h : d.rf2xx_on <;>
      cases hs : d.rf2xx_state <;>
        simp [rf2xx_wr_on, rf2xx_wr_on_crit, listen_fst, h, hs]

theorem c8_on_idempotent_witness :
    rf2xx_wr_on ⟨RF_RX, true, [], 0, false⟩ =
      (⟨RF_RX, true, [], 0, false⟩, [], 1) ∧
    rf2xx_wr_on ((rf2xx_wr_on ⟨RF_IDLE, false, [], 0, false⟩).1) =
      ((rf2xx_wr_on ⟨RF_IDLE, false, [], 0, false⟩).1, [], 1) :=
  ⟨(c8_on_idempotent ⟨RF_RX, true, [], 0, false⟩).1 rfl,
   (c8_on_idempotent ⟨RF_IDLE, false, [], 0, false⟩).2⟩

/-- C9: the `unsigned short` buffer length of the public read is
truncated to 8 bits at the internal `read(uint8_t buf_len)` call, so
behaviour depends only on `buf_len % 256`; in particular with
`buf_len = 256` (truncated to 0) every CRC-valid frame with a nonzero
payload is dropped as too large: return 0, zero-length drain, buffer
untouched. -/
theorem c9_read_buflen_truncated (d : Driver) (chip : ChipEnv)
    (buf : List Nat) (buf_len : Nat) :
    rf2xx_wr_read d chip buf buf_len =
      rf2xx_wr_read d chip buf (buf_len % 256) ∧
    (d.rf2xx_state = RF_RX_DONE → chip.crcValid = true →
     3 ≤ chip.frameLenByte → chip.frameLenByte ≤ 255 →
      (rf2xx_wr_read d chip buf 256).2 = ⟨buf, some 0, 0⟩) := by
  constructor
  · have h : buf_len % 256 % 256 = buf_len % 256 := by omega
    simp [rf2xx_wr_read, h]
  · intro hst hcrc hlo hhi
    have h256 : (256 : Nat) % 256 = 0 := by omega
    have hlen : (chip.frameLenByte + 254) % 256 = chip.frameLenByte - 2 := by
      omega
    simp [rf2xx_wr_read, hst, h256]
    rw [read_eq, hcrc, hlen]
    simp [Nat.sub_pos_of_lt (by omega : 2 < chip.frameLenByte)]

theorem c9_read_buflen_truncated_witness :
    rf2xx_wr_read ⟨RF_RX_DONE, false, [], 0, false⟩ ⟨true, 5, [10, 11, 12]⟩
        [0, 0, 0] 258 =
      rf2xx_wr_read ⟨RF_RX_DONE, false, [], 0, false⟩ ⟨true, 5, [10, 11, 12]⟩
        [0, 0, 0] (258 % 256) ∧
    (rf2xx_wr_read ⟨RF_RX_DONE, false, [], 0, false⟩ ⟨true, 5, [10, 11, 12]⟩
        [0, 0, 0] 256).2 = ⟨[0, 0, 0], some 0, 0⟩ :=
  ⟨(c9_read_buflen_truncated ⟨RF_RX_DONE, false, [], 0, false⟩
      ⟨true, 5, [10, 11, 12]⟩ [0, 0, 0] 258).1,
   (c9_read_buflen_truncated ⟨RF_RX_DONE, false, [], 0, false⟩
      ⟨true, 5, [10, 11, 12]⟩ [0, 0, 0] 258).2 rfl rfl (by decide)
      (by decide)⟩
